import Mathlib

set_option linter.unusedVariables false

/-!
Shallow embedding of the movie-catalog CRUD service (`src/routes/movies.py`,
`src/schemas/movies.py`).

The relational store is modelled as an explicit state (`DB`): one list of rows
per table plus an autoincrement counter per table.  Each route handler becomes
a pure function from the state (and the validated query/body parameters) to an
`Except`-style outcome, paired with the post-commit state where the handler
mutates the store.  Dates are carried as their ISO strings, and the float
fields (score/budget/revenue) as integers: no arithmetic is ever performed on
them, only storage and copying, so any value type with decidable equality is a
faithful carrier.
-/

namespace MoviesApi

/-- A persisted country row (`CountryModel`): id, unique code, optional name. -/
structure CountryRow where
  id : Nat
  code : String
  name : Option String := none
  deriving DecidableEq

/-- A persisted row of one of the name-keyed lookup tables
(`GenreModel` / `ActorModel` / `LanguageModel`): id and unique name. -/
structure NamedRow where
  id : Nat
  name : String
  deriving DecidableEq

/-- The value held by a movie's `country` relationship attribute: either a
resolved `CountryRow` (as `create_movie` assigns) or, after a PATCH supplying
`country`, the raw string the update loop assigned via `setattr`. -/
inductive CountryAttr where
  | ref (c : CountryRow)
  | raw (code : String)
  deriving DecidableEq

/-- The value held by one of a movie's list relationship attributes
(`genres` / `actors` / `languages`): either the list of resolved rows built by
`create_movie`, or, after a PATCH supplying that field, the raw list of names
the update loop assigned via `setattr`. -/
inductive RelAttr where
  | refs (rows : List NamedRow)
  | raw (names : List String)
  deriving DecidableEq

/-- A persisted movie row (`MovieModel`) together with its relationship
attributes as the handlers manipulate them. -/
structure MovieRow where
  id : Nat
  name : String
  date : String
  score : Int
  overview : String
  status : String
  budget : Int
  revenue : Int
  country_id : Nat
  country : CountryAttr
  genres : RelAttr
  actors : RelAttr
  languages : RelAttr
  deriving DecidableEq

/-- The relational store: one list of rows per table, in insertion order, plus
the next autoincrement id of each table. -/
structure DB where
  movies : List MovieRow := []
  countries : List CountryRow := []
  genres : List NamedRow := []
  actors : List NamedRow := []
  languages : List NamedRow := []
  nextMovieId : Nat := 1
  nextCountryId : Nat := 1
  nextGenreId : Nat := 1
  nextActorId : Nat := 1
  nextLanguageId : Nat := 1
  deriving DecidableEq

/-- An HTTP error outcome (`HTTPException(status_code=..., detail=...)`). -/
structure HTTPError where
  status : Nat
  detail : String
  deriving DecidableEq

/-- A directly constructed response (`Response(status_code=..., content=...)`),
as `delete_movie` returns. -/
structure HTTPResponse where
  status : Nat
  content : String
  deriving DecidableEq

/-- The body of `POST /movies/` (`MovieCreateSchema`). -/
structure MovieCreateSchema where
  name : String
  date : String
  score : Int
  overview : String
  status : String
  budget : Int
  revenue : Int
  country : String
  genres : List String
  actors : List String
  languages : List String
  deriving DecidableEq

/-- The body of `PATCH /movies/{id}/` (`MovieUpdateSchema`): every field
optional, `none` meaning the field was not supplied.  Defaults model the
pydantic `= None` defaults, so `{}` is the empty partial payload. -/
structure MovieUpdateSchema where
  name : Option String := none
  date : Option String := none
  score : Option Int := none
  overview : Option String := none
  status : Option String := none
  budget : Option Int := none
  revenue : Option Int := none
  country : Option String := none
  genres : Option (List String) := none
  actors : Option (List String) := none
  languages : Option (List String) := none
  deriving DecidableEq

/-- The body of a successful `GET /movies/` (`MovieListResponseSchema`). -/
structure MovieListResponse where
  movies : List MovieRow
  prev_page : Option String
  next_page : Option String
  total_pages : Nat
  total_items : Nat
  deriving DecidableEq

/-- `scalar_one_or_none()` of a select of a name-keyed table filtered on
`name == key`: the first matching row, if any. -/
def lookupNamed (table : List NamedRow) (key : String) : Option NamedRow :=
  table.find? (fun r => r.name == key)

/-- The inline find-or-create step `create_movie` performs for each
genre/actor/language name: look the row up by its unique name; if absent,
construct it, `add` it and `flush` (which assigns the next autoincrement id
and makes the row visible to later lookups in the same transaction).
Returns the row together with the updated table and counter. -/
def findOrCreateNamed (table : List NamedRow) (nextId : Nat) (key : String) :
    NamedRow × List NamedRow × Nat :=
  match lookupNamed table key with
  | some r => (r, table, nextId)
  | none =>
      let r : NamedRow := { id := nextId, name := key }
      (r, table ++ [r], nextId + 1)

/-- `scalar_one_or_none()` of a select of countries filtered on
`code == movie.country`. -/
def lookupCountry (table : List CountryRow) (code : String) : Option CountryRow :=
  table.find? (fun r => r.code == code)

/-- The find-or-create step `create_movie` performs for the country code
(lines 83-89 of the route module). -/
def findOrCreateCountry (table : List CountryRow) (nextId : Nat) (code : String) :
    CountryRow × List CountryRow × Nat :=
  match lookupCountry table code with
  | some r => (r, table, nextId)
  | none =>
      let r : CountryRow := { id := nextId, code := code, name := none }
      (r, table ++ [r], nextId + 1)

/-- The `for` loop `create_movie` runs over one of the `genres` / `actors` /
`languages` name lists: resolve each name through find-or-create and append
the resulting row to the accumulator list (one append per loop iteration). -/
def resolveNames (table : List NamedRow) (nextId : Nat) :
    List String → List NamedRow × List NamedRow × Nat
  | [] => ([], table, nextId)
  | k :: ks =>
      let p := findOrCreateNamed table nextId k
      let q := resolveNames p.2.1 p.2.2 ks
      (p.1 :: q.1, q.2.1, q.2.2)

/-- The navigation-link string the list route formats:
`/theater/movies/?page=P&per_page=N`. -/
def pageLink (page per_page : Nat) : String :=
  "/theater/movies/?page=" ++ toString page ++ "&per_page=" ++ toString per_page

/-- The id-descending ordering used by `ORDER BY MovieModel.id DESC`. -/
def idDescRel (a b : MovieRow) : Prop := b.id ≤ a.id

instance : DecidableRel idDescRel := fun a b => Nat.decLe b.id a.id

instance : IsTotal MovieRow idDescRel := ⟨fun a b => Nat.le_total b.id a.id⟩

instance : IsTrans MovieRow idDescRel := ⟨fun _ _ _ hab hbc => Nat.le_trans hbc hab⟩

/-- The rows of the movie table in the order `ORDER BY MovieModel.id DESC`
yields them. -/
def sortMoviesDesc (ms : List MovieRow) : List MovieRow :=
  ms.insertionSort idDescRel

/-- `GET /movies/` (`read_movies`): count all movies, 404 on an empty table,
compute `total_pages = (total_items + per_page - 1) // per_page` and
`offset = (page - 1) * per_page`, 404 when `page > total_pages`, otherwise
return the `per_page`-sized window of the id-descending order at `offset`,
with the navigation links. -/
def read_movies (db : DB) (page per_page : Nat) :
    Except HTTPError MovieListResponse :=
  let total_items := db.movies.length
  if total_items = 0 then
    .error { status := 404, detail := "No movies found." }
  else
    let total_pages := (total_items + per_page - 1) / per_page
    let off := (page - 1) * per_page
    if total_pages < page then
      .error { status := 404, detail := "No movies found." }
    else
      .ok { movies := ((sortMoviesDesc db.movies).drop off).take per_page
            prev_page := if 1 < page then some (pageLink (page - 1) per_page) else none
            next_page := if page < total_pages then some (pageLink (page + 1) per_page) else none
            total_pages := total_pages
            total_items := total_items }

/-- `POST /movies/` (`create_movie`): 409 when a movie with the same
`(name, date)` already exists; otherwise find-or-create the country and each
genre/actor/language, insert the movie row with all associations and commit.
Returns the outcome together with the post-request store. -/
def create_movie (db : DB) (movie : MovieCreateSchema) :
    Except HTTPError MovieRow × DB :=
  match db.movies.find? (fun r => r.name == movie.name && r.date == movie.date) with
  | some _ =>
      (.error { status := 409
                detail := "A movie with the name \x27" ++ movie.name ++
                  "\x27 and release date \x27" ++ movie.date ++ "\x27 already exists." },
       db)
  | none =>
      let c := findOrCreateCountry db.countries db.nextCountryId movie.country
      let g := resolveNames db.genres db.nextGenreId movie.genres
      let a := resolveNames db.actors db.nextActorId movie.actors
      let l := resolveNames db.languages db.nextLanguageId movie.languages
      let new_movie : MovieRow :=
        { id := db.nextMovieId, name := movie.name, date := movie.date
          score := movie.score, overview := movie.overview, status := movie.status
          budget := movie.budget, revenue := movie.revenue
          country_id := c.1.id, country := .ref c.1
          genres := .refs g.1, actors := .refs a.1, languages := .refs l.1 }
      (.ok new_movie,
       { movies := db.movies ++ [new_movie], countries := c.2.1
         genres := g.2.1, actors := a.2.1, languages := l.2.1
         nextMovieId := db.nextMovieId + 1, nextCountryId := c.2.2
         nextGenreId := g.2.2, nextActorId := a.2.2, nextLanguageId := l.2.2 })

/-- `GET /movies/{movie_id}/` (`movie_detail`): the movie with that id, with
relations eagerly loaded, or 404. -/
def movie_detail (db : DB) (movie_id : Nat) : Except HTTPError MovieRow :=
  match db.movies.find? (fun r => r.id == movie_id) with
  | some m => .ok m
  | none => .error { status := 404, detail := "Movie with the given ID was not found." }

/-- `DELETE /movies/{movie_id}/` (`delete_movie`): 404 when absent, otherwise
delete the row, commit, and return
`Response(status_code=204, content="Movie was deleted successfully.")`. -/
def delete_movie (db : DB) (movie_id : Nat) :
    Except HTTPError HTTPResponse × DB :=
  match db.movies.find? (fun r => r.id == movie_id) with
  | none =>
      (.error { status := 404, detail := "Movie with the given ID was not found." }, db)
  | some _ =>
      (.ok { status := 204, content := "Movie was deleted successfully." },
       { db with movies := db.movies.eraseP (fun r => r.id == movie_id) })

/-- One `(key, value)` pair of `update_data.model_dump(exclude_unset=True)`:
the field it names and the value `setattr` will assign. -/
inductive UpdateField where
  | name (v : String)
  | date (v : String)
  | score (v : Int)
  | overview (v : String)
  | status (v : String)
  | budget (v : Int)
  | revenue (v : Int)
  | country (v : String)
  | genres (v : List String)
  | actors (v : List String)
  | languages (v : List String)
  deriving DecidableEq

/-- One `setattr(movie, key, value)` of the update loop.  The relation-valued
fields (`country`, `genres`, `actors`, `languages`) receive the raw payload
value, exactly as `setattr` assigns it to the relationship attribute. -/
def setField (m : MovieRow) : UpdateField → MovieRow
  | .name v => { m with name := v }
  | .date v => { m with date := v }
  | .score v => { m with score := v }
  | .overview v => { m with overview := v }
  | .status v => { m with status := v }
  | .budget v => { m with budget := v }
  | .revenue v => { m with revenue := v }
  | .country v => { m with country := .raw v }
  | .genres v => { m with genres := .raw v }
  | .actors v => { m with actors := .raw v }
  | .languages v => { m with languages := .raw v }

/-- `update_data.model_dump(exclude_unset=True)` as the list of `(key, value)`
items the update loop iterates, in schema field order: exactly the fields that
were supplied. -/
def model_dump_exclude_unset (u : MovieUpdateSchema) : List UpdateField :=
  (u.name.map UpdateField.name).toList ++
  (u.date.map UpdateField.date).toList ++
  (u.score.map UpdateField.score).toList ++
  (u.overview.map UpdateField.overview).toList ++
  (u.status.map UpdateField.status).toList ++
  (u.budget.map UpdateField.budget).toList ++
  (u.revenue.map UpdateField.revenue).toList ++
  (u.country.map UpdateField.country).toList ++
  (u.genres.map UpdateField.genres).toList ++
  (u.actors.map UpdateField.actors).toList ++
  (u.languages.map UpdateField.languages).toList

/-- The whole `for key, value in update_data.model_dump(exclude_unset=True)`
loop of `update_movie`: fold the `setattr` step over the dumped items. -/
def applyUpdate (m : MovieRow) (u : MovieUpdateSchema) : MovieRow :=
  (model_dump_exclude_unset u).foldl setField m

/-- The effect of committing the mutated movie object: the row with the
movie's id now holds the updated attribute values. -/
def replaceById (movies : List MovieRow) (movie_id : Nat) (m2 : MovieRow) :
    List MovieRow :=
  movies.map (fun x => if x.id == movie_id then m2 else x)

/-- `PATCH /movies/{movie_id}/` (`update_movie`): 404 when absent; otherwise
assign every supplied field, commit, and then exit by raising
`HTTPException(status_code=200, detail="Movie updated successfully.")` -
the handler never returns the updated schema as a normal value. -/
def update_movie (db : DB) (movie_id : Nat) (update_data : MovieUpdateSchema) :
    Except HTTPError MovieRow × DB :=
  match db.movies.find? (fun r => r.id == movie_id) with
  | none =>
      (.error { status := 404, detail := "Movie with the given ID was not found." }, db)
  | some movie =>
      (.error { status := 200, detail := "Movie updated successfully." },
       { db with movies :=
          replaceById db.movies movie_id (applyUpdate movie update_data) })

deriving instance DecidableEq for Except

/-- The schema-level uniqueness invariant of the name-keyed lookup tables:
no two rows share a name. -/
def uniqNames (t : List NamedRow) : Prop :=
  t.Pairwise (fun a b => a.name ≠ b.name)

/-! ### Concrete fixtures used to instantiate theorems -/

/-- A concrete movie row. -/
def sampleMovie : MovieRow :=
  { id := 1, name := "Dune", date := "2021-10-22", score := 80
    overview := "Desert planet.", status := "Released", budget := 1, revenue := 4
    country_id := 1, country := .ref { id := 1, code := "USA", name := none }
    genres := .refs [{ id := 1, name := "Sci-Fi" }]
    actors := .refs [{ id := 1, name := "A" }]
    languages := .refs [{ id := 1, name := "English" }] }

/-- A store holding exactly `sampleMovie`. -/
def sampleDB : DB :=
  { movies := [sampleMovie]
    countries := [{ id := 1, code := "USA", name := none }]
    genres := [{ id := 1, name := "Sci-Fi" }]
    actors := [{ id := 1, name := "A" }]
    languages := [{ id := 1, name := "English" }]
    nextMovieId := 2, nextCountryId := 2, nextGenreId := 2
    nextActorId := 2, nextLanguageId := 2 }

/-- The spec's scenario create input. -/
def duneInput : MovieCreateSchema :=
  { name := "Dune", date := "2021-10-22", score := 80
    overview := "Desert planet.", status := "Released", budget := 1, revenue := 4
    country := "USA", genres := ["Sci-Fi"], actors := ["A"], languages := ["English"] }

/-- The store after creating `duneInput` in the empty store. -/
def duneDB : DB := (create_movie {} duneInput).2

/-- A concrete partial update payload supplying only the name. -/
def renamePayload : MovieUpdateSchema := { name := some "Dune: Part One" }

end MoviesApi

namespace MoviesApi

/-! ### Claim theorems -/

/-- C1: within one transaction, find-or-create is idempotent for every kind of
lookup key (genre/actor/language name and country code): the second call with
the same key returns the same entity reference and leaves the table and the
autoincrement counter unchanged, because it finds the row the first call
inserted and flushed instead of inserting again. -/
theorem findOrCreate_idempotent (gt : List NamedRow) (gn : Nat) (key : String)
    (ct : List CountryRow) (cn : Nat) (code : String) :
    findOrCreateNamed (findOrCreateNamed gt gn key).2.1
        (findOrCreateNamed gt gn key).2.2 key
      = findOrCreateNamed gt gn key
    ∧ findOrCreateCountry (findOrCreateCountry ct cn code).2.1
        (findOrCreateCountry ct cn code).2.2 code
      = findOrCreateCountry ct cn code := by
  constructor
  · cases h : lookupNamed gt key with
    | some r =>
        simp [findOrCreateNamed, h]
    | none =>
        have h2 : lookupNamed (gt ++ [{ id := gn, name := key }]) key
            = some { id := gn, name := key } := by
          unfold lookupNamed at h ⊢
          rw [List.find?_append, h]
          simp
        simp [findOrCreateNamed, h, h2]
  · cases h : lookupCountry ct code with
    | some r =>
        simp [findOrCreateCountry, h]
    | none =>
        have h2 : lookupCountry (ct ++ [{ id := cn, code := code, name := none }]) code
            = some { id := cn, code := code, name := none } := by
          unfold lookupCountry at h ⊢
          rw [List.find?_append, h]
          simp
        simp [findOrCreateCountry, h, h2]

/-! Helper lemmas about the find-or-create loop. -/

theorem findOrCreateNamed_name (t : List NamedRow) (n : Nat) (k : String) :
    (findOrCreateNamed t n k).1.name = k := by
  cases h : lookupNamed t k with
  | some r =>
      unfold lookupNamed at h
      have hb : r.name = k := by simpa using List.find?_some h
      simp [findOrCreateNamed, lookupNamed, h, hb]
  | none => simp [findOrCreateNamed, h]

theorem findOrCreateNamed_grows (t : List NamedRow) (n : Nat) (k : String) :
    t <+: (findOrCreateNamed t n k).2.1 := by
  cases h : lookupNamed t k with
  | some r => simp [findOrCreateNamed, h]
  | none =>
      simp only [findOrCreateNamed, h]
      exact ⟨[{ id := n, name := k }], rfl⟩

theorem findOrCreateNamed_mem (t : List NamedRow) (n : Nat) (k : String) :
    (findOrCreateNamed t n k).1 ∈ (findOrCreateNamed t n k).2.1 := by
  cases h : lookupNamed t k with
  | some r =>
      unfold lookupNamed at h
      simp only [findOrCreateNamed, lookupNamed, h]
      exact List.mem_of_find?_eq_some h
  | none => simp [findOrCreateNamed, h]

theorem findOrCreateNamed_uniq (t : List NamedRow) (n : Nat) (k : String)
    (h : uniqNames t) : uniqNames (findOrCreateNamed t n k).2.1 := by
  cases hl : lookupNamed t k with
  | some r => simpa [findOrCreateNamed, hl, uniqNames] using h
  | none =>
      have hall : ∀ x ∈ t, ¬ x.name = k := by
        simpa [lookupNamed, List.find?_eq_none] using hl
      simp only [findOrCreateNamed, hl, uniqNames, List.pairwise_append]
      refine ⟨h, List.pairwise_singleton _ _, ?_⟩
      intro a ha b hb
      simp only [List.mem_singleton] at hb
      subst hb
      intro he
      exact hall a ha (by simpa using he)

theorem resolveNames_grows (t : List NamedRow) (n : Nat) (ns : List String) :
    t <+: (resolveNames t n ns).2.1 := by
  induction ns generalizing t n with
  | nil => simp [resolveNames]
  | cons k ks ih =>
      exact (findOrCreateNamed_grows t n k).trans
        (ih (findOrCreateNamed t n k).2.1 (findOrCreateNamed t n k).2.2)

theorem resolveNames_uniq (t : List NamedRow) (n : Nat) (ns : List String)
    (h : uniqNames t) : uniqNames (resolveNames t n ns).2.1 := by
  induction ns generalizing t n with
  | nil => simpa [resolveNames]
  | cons k ks ih =>
      exact ih (findOrCreateNamed t n k).2.1 (findOrCreateNamed t n k).2.2
        (findOrCreateNamed_uniq t n k h)

theorem resolveNames_sub (t : List NamedRow) (n : Nat) (ns : List String) :
    ∀ r ∈ (resolveNames t n ns).1, r ∈ (resolveNames t n ns).2.1 := by
  induction ns generalizing t n with
  | nil => simp [resolveNames]
  | cons k ks ih =>
      intro r hr
      rcases List.mem_cons.mp hr with hhead | htail
      · subst hhead
        exact (resolveNames_grows _ _ ks).subset (findOrCreateNamed_mem t n k)
      · exact ih (findOrCreateNamed t n k).2.1 (findOrCreateNamed t n k).2.2 r htail

theorem resolveNames_names (t : List NamedRow) (n : Nat) (ns : List String) :
    (resolveNames t n ns).1.map (fun r => r.name) = ns := by
  induction ns generalizing t n with
  | nil => simp [resolveNames]
  | cons k ks ih =>
      simp [resolveNames, findOrCreateNamed_name, ih]

theorem uniqNames_mem_eq {l : List NamedRow} (h : uniqNames l) {r s : NamedRow}
    (hr : r ∈ l) (hs : s ∈ l) (hn : r.name = s.name) : r = s := by
  induction l with
  | nil => cases hr
  | cons a t ih =>
      have hp := List.pairwise_cons.mp h
      rcases List.mem_cons.mp hr with rfl | hr2
      · rcases List.mem_cons.mp hs with rfl | hs2
        · rfl
        · exact absurd hn (hp.1 s hs2)
      · rcases List.mem_cons.mp hs with rfl | hs2
        · exact absurd hn.symm (hp.1 r hr2)
        · exact ih hp.2 hr2 hs2

/-- C2 as stated is false on the code: resolving the repeated name list
["A", "A"] appends one reference per occurrence, so the relation list receives
two references for the single distinct name "A", not exactly one. -/
theorem resolveNames_dedup_cex :
    (resolveNames [] 0 ["A", "A"]).1
      = [{ id := 0, name := "A" }, { id := 0, name := "A" }]
    ∧ ¬ (resolveNames [] 0 ["A", "A"]).1.length = 1 := by
  exact ⟨rfl, by decide⟩

/-- C2 amended: create resolves each of genres/actors/languages into one
entity reference per name occurrence, in input order (the list of resolved
names equals the input list, so the length is the input length, not the number
of distinct names); occurrences of the same name resolve to the identical row,
and no duplicate entity row is created (table-level name uniqueness is
preserved). -/
theorem resolveNames_spec (table : List NamedRow) (n : Nat) (names : List String)
    (huniq : uniqNames table) :
    (resolveNames table n names).1.map (fun r => r.name) = names
    ∧ (resolveNames table n names).1.length = names.length
    ∧ (∀ r ∈ (resolveNames table n names).1, ∀ s ∈ (resolveNames table n names).1,
        r.name = s.name → r = s)
    ∧ uniqNames (resolveNames table n names).2.1 := by
  have hnames := resolveNames_names table n names
  have hlen : (resolveNames table n names).1.length = names.length := by
    have := congrArg List.length hnames
    simpa using this
  have hfinal := resolveNames_uniq table n names huniq
  refine ⟨hnames, hlen, ?_, hfinal⟩
  intro r hr s hs hname
  exact uniqNames_mem_eq hfinal (resolveNames_sub table n names r hr)
    (resolveNames_sub table n names s hs) hname

/-- C2 amended, at a concrete input: resolving ["A", "B", "A"] in the empty
table yields references named exactly ["A", "B", "A"]. -/
theorem resolveNames_spec_witness :
    (resolveNames [] 0 ["A", "B", "A"]).1.map (fun r => r.name) = ["A", "B", "A"] :=
  (resolveNames_spec [] 0 ["A", "B", "A"] (by simp [uniqNames])).1

/-- C3: for validated paging parameters, the list endpoint fails with the 404
"No movies found." error exactly when the movie count is zero or the page
exceeds totalPages, with totalPages computed as
(totalItems + perPage - 1) // perPage in integer arithmetic. -/
theorem read_movies_notFound (db : DB) (page per_page : Nat)
    (hpage : 1 ≤ page) (hpp1 : 1 ≤ per_page) (hpp2 : per_page ≤ 20) :
    read_movies db page per_page
        = .error { status := 404, detail := "No movies found." }
      ↔ (db.movies.length = 0
         ∨ (db.movies.length + per_page - 1) / per_page < page) := by
  by_cases h0 : db.movies.length = 0
  · simp [read_movies, h0]
  · by_cases hpg : (db.movies.length + per_page - 1) / per_page < page
    · simp [read_movies, h0, hpg]
    · simp [read_movies, h0, hpg]

/-- C3, at a concrete input: page 2 of size 10 over the empty store is the 404
"No movies found." error. -/
theorem read_movies_notFound_witness :
    read_movies {} 2 10 = .error { status := 404, detail := "No movies found." } :=
  (read_movies_notFound {} 2 10 (by decide) (by decide) (by decide)).mpr
    (Or.inl rfl)

/-- Characterization of the success path of the list endpoint: when the table
is nonempty and the page is within range, the handler returns exactly this
response record. -/
theorem read_movies_ok (db : DB) (page per_page : Nat)
    (h0 : ¬ db.movies.length = 0)
    (hpg : ¬ (db.movies.length + per_page - 1) / per_page < page) :
    read_movies db page per_page = .ok
      { movies :=
          ((sortMoviesDesc db.movies).drop ((page - 1) * per_page)).take per_page
        prev_page :=
          if 1 < page then some (pageLink (page - 1) per_page) else none
        next_page :=
          if page < (db.movies.length + per_page - 1) / per_page
          then some (pageLink (page + 1) per_page) else none
        total_pages := (db.movies.length + per_page - 1) / per_page
        total_items := db.movies.length } := by
  simp [read_movies, h0, hpg]

/-- C4: whenever the list endpoint succeeds, the returned movies are exactly
the perPage-sized window at offset (page-1)*perPage of the id-descending
ordering of the movie table: the ordering is a permutation of the table
sorted so that earlier entries have the larger id, the window holds at most
perPage items, and it is strictly descending when the table's ids are
duplicate-free. -/
theorem read_movies_page_window (db : DB) (page per_page : Nat)
    (resp : MovieListResponse)
    (hpage : 1 ≤ page) (hpp1 : 1 ≤ per_page) (hpp2 : per_page ≤ 20)
    (hok : read_movies db page per_page = .ok resp) :
    resp.movies
        = ((sortMoviesDesc db.movies).drop ((page - 1) * per_page)).take per_page
    ∧ resp.movies.length ≤ per_page
    ∧ (sortMoviesDesc db.movies).Perm db.movies
    ∧ resp.movies.Pairwise (fun a b => b.id ≤ a.id)
    ∧ ((db.movies.map (fun r => r.id)).Nodup →
        resp.movies.Pairwise (fun a b => b.id < a.id)) := by
  have hperm : (sortMoviesDesc db.movies).Perm db.movies :=
    List.perm_insertionSort idDescRel db.movies
  have hsorted : (sortMoviesDesc db.movies).Pairwise idDescRel :=
    List.sorted_insertionSort idDescRel db.movies
  by_cases h0 : db.movies.length = 0
  · simp [read_movies, h0] at hok
  · by_cases hpg : (db.movies.length + per_page - 1) / per_page < page
    · simp [read_movies, h0, hpg] at hok
    · rw [read_movies_ok db page per_page h0 hpg] at hok
      injection hok with hok
      subst hok
      dsimp only
      have hwin : (((sortMoviesDesc db.movies).drop ((page - 1) * per_page)).take
          per_page).Sublist (sortMoviesDesc db.movies) :=
        (List.take_sublist _ _).trans (List.drop_sublist _ _)
      refine ⟨rfl, List.length_take_le _ _, hperm,
        List.Pairwise.sublist hwin hsorted, ?_⟩
      intro hnodup
      have hnodup2 : ((sortMoviesDesc db.movies).map (fun r => r.id)).Nodup :=
        ((hperm.map (fun r => r.id)).symm).nodup hnodup
      have hne : (sortMoviesDesc db.movies).Pairwise (fun a b => a.id ≠ b.id) :=
        List.pairwise_map.mp hnodup2
      have hlt : (sortMoviesDesc db.movies).Pairwise (fun a b => b.id < a.id) :=
        (hsorted.and hne).imp
          (fun hab => Nat.lt_of_le_of_ne hab.1 (Ne.symm hab.2))
      exact List.Pairwise.sublist hwin hlt

/-- C4, at a concrete input: the first page of size 10 over the one-movie
store holds at most 10 items. -/
theorem read_movies_page_window_witness :
    ({ movies := [sampleMovie], prev_page := none, next_page := none
       total_pages := 1, total_items := 1 } : MovieListResponse).movies.length
      ≤ 10 :=
  (read_movies_page_window sampleDB 1 10 _ (by decide) (by decide) (by decide)
    rfl).2.1

/-- C5: in every successful list response, prevPage is null exactly when the
page is 1 and otherwise links to page-1 with the same perPage, and nextPage is
null exactly when the page equals totalPages and otherwise links to page+1
with the same perPage. -/
theorem read_movies_nav_links (db : DB) (page per_page : Nat)
    (resp : MovieListResponse)
    (hpage : 1 ≤ page)
    (hok : read_movies db page per_page = .ok resp) :
    (resp.prev_page = none ↔ page = 1)
    ∧ (¬ page = 1 → resp.prev_page = some (pageLink (page - 1) per_page))
    ∧ (resp.next_page = none ↔ page = resp.total_pages)
    ∧ (¬ page = resp.total_pages →
        resp.next_page = some (pageLink (page + 1) per_page)) := by
  by_cases h0 : db.movies.length = 0
  · simp [read_movies, h0] at hok
  · by_cases hpg : (db.movies.length + per_page - 1) / per_page < page
    · simp [read_movies, h0, hpg] at hok
    · rw [read_movies_ok db page per_page h0 hpg] at hok
      injection hok with hok
      subst hok
      dsimp only
      have hle : page ≤ (db.movies.length + per_page - 1) / per_page :=
        Nat.le_of_not_lt hpg
      constructor
      · by_cases h1 : 1 < page <;> simp [h1] <;> omega
      · constructor
        · intro h1
          have : 1 < page := by omega
          simp [this]
        · constructor
          · by_cases h2 : page < (db.movies.length + per_page - 1) / per_page <;>
              simp [h2] <;> omega
          · intro h2
            have : page < (db.movies.length + per_page - 1) / per_page := by
              omega
            simp [this]

/-- C5, at a concrete input: on page 1 of 1 total page, both navigation links
are null. -/
theorem read_movies_nav_links_witness :
    (({ movies := [sampleMovie], prev_page := none, next_page := none
        total_pages := 1, total_items := 1 } : MovieListResponse).prev_page
      = none) ↔ (1 = 1) :=
  (read_movies_nav_links sampleDB 1 10 _ (by decide) rfl).1

/-- C6: create fails with a 409 conflict exactly when a movie with the same
(name, date) pair already exists; on conflict no row is inserted (the store is
unchanged); and creating the same input twice in a row always conflicts on the
second call. -/
theorem create_movie_conflict (db : DB) (m : MovieCreateSchema) :
    ((∃ e, (create_movie db m).1 = .error e ∧ e.status = 409)
      ↔ ∃ r ∈ db.movies, r.name = m.name ∧ r.date = m.date)
    ∧ ((∃ r ∈ db.movies, r.name = m.name ∧ r.date = m.date) →
        (create_movie db m).2 = db)
    ∧ (∃ e, (create_movie (create_movie db m).2 m).1 = .error e
        ∧ e.status = 409) := by
  cases hf : db.movies.find? (fun r => r.name == m.name && r.date == m.date) with
  | some r =>
      have hr := List.mem_of_find?_eq_some hf
      have hp : r.name = m.name ∧ r.date = m.date := by
        have := List.find?_some hf
        simpa using this
      have h2 : (create_movie db m).2 = db := by simp [create_movie, hf]
      refine ⟨⟨fun _ => ⟨r, hr, hp⟩, fun _ => ?_⟩, fun _ => h2, ?_⟩
      · exact ⟨{ status := 409
                 detail := "A movie with the name \x27" ++ m.name ++
                   "\x27 and release date \x27" ++ m.date ++ "\x27 already exists." },
               by simp [create_movie, hf], rfl⟩
      · rw [h2]
        exact ⟨{ status := 409
                 detail := "A movie with the name \x27" ++ m.name ++
                   "\x27 and release date \x27" ++ m.date ++ "\x27 already exists." },
               by simp [create_movie, hf], rfl⟩
  | none =>
      have hnone : ∀ x ∈ db.movies, ¬ (x.name = m.name ∧ x.date = m.date) := by
        intro x hx hc
        have := List.find?_eq_none.mp hf x hx
        simp [hc.1, hc.2] at this
      refine ⟨⟨?_, ?_⟩, ?_, ?_⟩
      · rintro ⟨e, he, -⟩
        simp [create_movie, hf] at he
      · rintro ⟨rr, hrr, hc⟩
        exact absurd hc (hnone rr hrr)
      · rintro ⟨rr, hrr, hc⟩
        exact absurd hc (hnone rr hrr)
      · refine ⟨{ status := 409
                  detail := "A movie with the name \x27" ++ m.name ++
                    "\x27 and release date \x27" ++ m.date ++ "\x27 already exists." },
                ?_, rfl⟩
        simp only [create_movie, hf]
        rw [List.find?_append, hf]
        simp

/-- C6, at a concrete input: creating the Dune input again in the store that
already holds it inserts nothing - the store is returned unchanged. -/
theorem create_movie_conflict_witness :
    (create_movie duneDB duneInput).2 = duneDB :=
  (create_movie_conflict duneDB duneInput).2.1 (by decide)

/-- A single dumped field that does not name the observed column leaves that
column unchanged through the `setattr` fold. -/
theorem setField_foldl_single {α : Type} {β : Type} (π : MovieRow → β)
    (c : α → UpdateField) (h : ∀ m2 v, π (setField m2 (c v)) = π m2)
    (o : Option α) (m : MovieRow) :
    π (((o.map c).toList).foldl setField m) = π m := by
  cases o with
  | none => rfl
  | some v => exact h m v

/-- The update loop never touches the primary key. -/
theorem applyUpdate_id (m : MovieRow) (u : MovieUpdateSchema) :
    (applyUpdate m u).id = m.id := by
  unfold applyUpdate model_dump_exclude_unset
  simp only [List.foldl_append]
  simp [setField_foldl_single (fun x => x.id) UpdateField.name (fun m2 v => rfl),
    setField_foldl_single (fun x => x.id) UpdateField.date (fun m2 v => rfl),
    setField_foldl_single (fun x => x.id) UpdateField.score (fun m2 v => rfl),
    setField_foldl_single (fun x => x.id) UpdateField.overview (fun m2 v => rfl),
    setField_foldl_single (fun x => x.id) UpdateField.status (fun m2 v => rfl),
    setField_foldl_single (fun x => x.id) UpdateField.budget (fun m2 v => rfl),
    setField_foldl_single (fun x => x.id) UpdateField.revenue (fun m2 v => rfl),
    setField_foldl_single (fun x => x.id) UpdateField.country (fun m2 v => rfl),
    setField_foldl_single (fun x => x.id) UpdateField.genres (fun m2 v => rfl),
    setField_foldl_single (fun x => x.id) UpdateField.actors (fun m2 v => rfl),
    setField_foldl_single (fun x => x.id) UpdateField.languages (fun m2 v => rfl)]

/-- The update loop never touches the country_id column (only the `country`
relationship attribute). -/
theorem applyUpdate_country_id_eq (m : MovieRow) (u : MovieUpdateSchema) :
    (applyUpdate m u).country_id = m.country_id := by
  unfold applyUpdate model_dump_exclude_unset
  simp only [List.foldl_append]
  simp [setField_foldl_single (fun x => x.country_id) UpdateField.name (fun m2 v => rfl),
    setField_foldl_single (fun x => x.country_id) UpdateField.date (fun m2 v => rfl),
    setField_foldl_single (fun x => x.country_id) UpdateField.score (fun m2 v => rfl),
    setField_foldl_single (fun x => x.country_id) UpdateField.overview (fun m2 v => rfl),
    setField_foldl_single (fun x => x.country_id) UpdateField.status (fun m2 v => rfl),
    setField_foldl_single (fun x => x.country_id) UpdateField.budget (fun m2 v => rfl),
    setField_foldl_single (fun x => x.country_id) UpdateField.revenue (fun m2 v => rfl),
    setField_foldl_single (fun x => x.country_id) UpdateField.country (fun m2 v => rfl),
    setField_foldl_single (fun x => x.country_id) UpdateField.genres (fun m2 v => rfl),
    setField_foldl_single (fun x => x.country_id) UpdateField.actors (fun m2 v => rfl),
    setField_foldl_single (fun x => x.country_id) UpdateField.languages (fun m2 v => rfl)]

/-- Merge-patch on the name column. -/
theorem applyUpdate_name_eq (m : MovieRow) (u : MovieUpdateSchema) :
    (applyUpdate m u).name = u.name.getD m.name := by
  unfold applyUpdate model_dump_exclude_unset
  simp only [List.foldl_append]
  cases hn : u.name <;>
  simp [hn, setField,
    setField_foldl_single (fun x => x.name) UpdateField.date (fun m2 v => rfl),
    setField_foldl_single (fun x => x.name) UpdateField.score (fun m2 v => rfl),
    setField_foldl_single (fun x => x.name) UpdateField.overview (fun m2 v => rfl),
    setField_foldl_single (fun x => x.name) UpdateField.status (fun m2 v => rfl),
    setField_foldl_single (fun x => x.name) UpdateField.budget (fun m2 v => rfl),
    setField_foldl_single (fun x => x.name) UpdateField.revenue (fun m2 v => rfl),
    setField_foldl_single (fun x => x.name) UpdateField.country (fun m2 v => rfl),
    setField_foldl_single (fun x => x.name) UpdateField.genres (fun m2 v => rfl),
    setField_foldl_single (fun x => x.name) UpdateField.actors (fun m2 v => rfl),
    setField_foldl_single (fun x => x.name) UpdateField.languages (fun m2 v => rfl)]

/-- Merge-patch on the date column. -/
theorem applyUpdate_date_eq (m : MovieRow) (u : MovieUpdateSchema) :
    (applyUpdate m u).date = u.date.getD m.date := by
  unfold applyUpdate model_dump_exclude_unset
  simp only [List.foldl_append]
  cases hn : u.date <;>
  simp [hn, setField,
    setField_foldl_single (fun x => x.date) UpdateField.name (fun m2 v => rfl),
    setField_foldl_single (fun x => x.date) UpdateField.score (fun m2 v => rfl),
    setField_foldl_single (fun x => x.date) UpdateField.overview (fun m2 v => rfl),
    setField_foldl_single (fun x => x.date) UpdateField.status (fun m2 v => rfl),
    setField_foldl_single (fun x => x.date) UpdateField.budget (fun m2 v => rfl),
    setField_foldl_single (fun x => x.date) UpdateField.revenue (fun m2 v => rfl),
    setField_foldl_single (fun x => x.date) UpdateField.country (fun m2 v => rfl),
    setField_foldl_single (fun x => x.date) UpdateField.genres (fun m2 v => rfl),
    setField_foldl_single (fun x => x.date) UpdateField.actors (fun m2 v => rfl),
    setField_foldl_single (fun x => x.date) UpdateField.languages (fun m2 v => rfl)]

/-- Merge-patch on the score column. -/
theorem applyUpdate_score_eq (m : MovieRow) (u : MovieUpdateSchema) :
    (applyUpdate m u).score = u.score.getD m.score := by
  unfold applyUpdate model_dump_exclude_unset
  simp only [List.foldl_append]
  cases hn : u.score <;>
  simp [hn, setField,
    setField_foldl_single (fun x => x.score) UpdateField.name (fun m2 v => rfl),
    setField_foldl_single (fun x => x.score) UpdateField.date (fun m2 v => rfl),
    setField_foldl_single (fun x => x.score) UpdateField.overview (fun m2 v => rfl),
    setField_foldl_single (fun x => x.score) UpdateField.status (fun m2 v => rfl),
    setField_foldl_single (fun x => x.score) UpdateField.budget (fun m2 v => rfl),
    setField_foldl_single (fun x => x.score) UpdateField.revenue (fun m2 v => rfl),
    setField_foldl_single (fun x => x.score) UpdateField.country (fun m2 v => rfl),
    setField_foldl_single (fun x => x.score) UpdateField.genres (fun m2 v => rfl),
    setField_foldl_single (fun x => x.score) UpdateField.actors (fun m2 v => rfl),
    setField_foldl_single (fun x => x.score) UpdateField.languages (fun m2 v => rfl)]

/-- Merge-patch on the overview column. -/
theorem applyUpdate_overview_eq (m : MovieRow) (u : MovieUpdateSchema) :
    (applyUpdate m u).overview = u.overview.getD m.overview := by
  unfold applyUpdate model_dump_exclude_unset
  simp only [List.foldl_append]
  cases hn : u.overview <;>
  simp [hn, setField,
    setField_foldl_single (fun x => x.overview) UpdateField.name (fun m2 v => rfl),
    setField_foldl_single (fun x => x.overview) UpdateField.date (fun m2 v => rfl),
    setField_foldl_single (fun x => x.overview) UpdateField.score (fun m2 v => rfl),
    setField_foldl_single (fun x => x.overview) UpdateField.status (fun m2 v => rfl),
    setField_foldl_single (fun x => x.overview) UpdateField.budget (fun m2 v => rfl),
    setField_foldl_single (fun x => x.overview) UpdateField.revenue (fun m2 v => rfl),
    setField_foldl_single (fun x => x.overview) UpdateField.country (fun m2 v => rfl),
    setField_foldl_single (fun x => x.overview) UpdateField.genres (fun m2 v => rfl),
    setField_foldl_single (fun x => x.overview) UpdateField.actors (fun m2 v => rfl),
    setField_foldl_single (fun x => x.overview) UpdateField.languages (fun m2 v => rfl)]

/-- Merge-patch on the status column. -/
theorem applyUpdate_status_eq (m : MovieRow) (u : MovieUpdateSchema) :
    (applyUpdate m u).status = u.status.getD m.status := by
  unfold applyUpdate model_dump_exclude_unset
  simp only [List.foldl_append]
  cases hn : u.status <;>
  simp [hn, setField,
    setField_foldl_single (fun x => x.status) UpdateField.name (fun m2 v => rfl),
    setField_foldl_single (fun x => x.status) UpdateField.date (fun m2 v => rfl),
    setField_foldl_single (fun x => x.status) UpdateField.score (fun m2 v => rfl),
    setField_foldl_single (fun x => x.status) UpdateField.overview (fun m2 v => rfl),
    setField_foldl_single (fun x => x.status) UpdateField.budget (fun m2 v => rfl),
    setField_foldl_single (fun x => x.status) UpdateField.revenue (fun m2 v => rfl),
    setField_foldl_single (fun x => x.status) UpdateField.country (fun m2 v => rfl),
    setField_foldl_single (fun x => x.status) UpdateField.genres (fun m2 v => rfl),
    setField_foldl_single (fun x => x.status) UpdateField.actors (fun m2 v => rfl),
    setField_foldl_single (fun x => x.status) UpdateField.languages (fun m2 v => rfl)]

/-- Merge-patch on the budget column. -/
theorem applyUpdate_budget_eq (m : MovieRow) (u : MovieUpdateSchema) :
    (applyUpdate m u).budget = u.budget.getD m.budget := by
  unfold applyUpdate model_dump_exclude_unset
  simp only [List.foldl_append]
  cases hn : u.budget <;>
  simp [hn, setField,
    setField_foldl_single (fun x => x.budget) UpdateField.name (fun m2 v => rfl),
    setField_foldl_single (fun x => x.budget) UpdateField.date (fun m2 v => rfl),
    setField_foldl_single (fun x => x.budget) UpdateField.score (fun m2 v => rfl),
    setField_foldl_single (fun x => x.budget) UpdateField.overview (fun m2 v => rfl),
    setField_foldl_single (fun x => x.budget) UpdateField.status (fun m2 v => rfl),
    setField_foldl_single (fun x => x.budget) UpdateField.revenue (fun m2 v => rfl),
    setField_foldl_single (fun x => x.budget) UpdateField.country (fun m2 v => rfl),
    setField_foldl_single (fun x => x.budget) UpdateField.genres (fun m2 v => rfl),
    setField_foldl_single (fun x => x.budget) UpdateField.actors (fun m2 v => rfl),
    setField_foldl_single (fun x => x.budget) UpdateField.languages (fun m2 v => rfl)]

/-- Merge-patch on the revenue column. -/
theorem applyUpdate_revenue_eq (m : MovieRow) (u : MovieUpdateSchema) :
    (applyUpdate m u).revenue = u.revenue.getD m.revenue := by
  unfold applyUpdate model_dump_exclude_unset
  simp only [List.foldl_append]
  cases hn : u.revenue <;>
  simp [hn, setField,
    setField_foldl_single (fun x => x.revenue) UpdateField.name (fun m2 v => rfl),
    setField_foldl_single (fun x => x.revenue) UpdateField.date (fun m2 v => rfl),
    setField_foldl_single (fun x => x.revenue) UpdateField.score (fun m2 v => rfl),
    setField_foldl_single (fun x => x.revenue) UpdateField.overview (fun m2 v => rfl),
    setField_foldl_single (fun x => x.revenue) UpdateField.status (fun m2 v => rfl),
    setField_foldl_single (fun x => x.revenue) UpdateField.budget (fun m2 v => rfl),
    setField_foldl_single (fun x => x.revenue) UpdateField.country (fun m2 v => rfl),
    setField_foldl_single (fun x => x.revenue) UpdateField.genres (fun m2 v => rfl),
    setField_foldl_single (fun x => x.revenue) UpdateField.actors (fun m2 v => rfl),
    setField_foldl_single (fun x => x.revenue) UpdateField.languages (fun m2 v => rfl)]

/-- Merge-patch on the country relationship attribute. -/
theorem applyUpdate_country_eq (m : MovieRow) (u : MovieUpdateSchema) :
    (applyUpdate m u).country = (u.country.map CountryAttr.raw).getD m.country := by
  unfold applyUpdate model_dump_exclude_unset
  simp only [List.foldl_append]
  cases hn : u.country <;>
  simp [hn, setField,
    setField_foldl_single (fun x => x.country) UpdateField.name (fun m2 v => rfl),
    setField_foldl_single (fun x => x.country) UpdateField.date (fun m2 v => rfl),
    setField_foldl_single (fun x => x.country) UpdateField.score (fun m2 v => rfl),
    setField_foldl_single (fun x => x.country) UpdateField.overview (fun m2 v => rfl),
    setField_foldl_single (fun x => x.country) UpdateField.status (fun m2 v => rfl),
    setField_foldl_single (fun x => x.country) UpdateField.budget (fun m2 v => rfl),
    setField_foldl_single (fun x => x.country) UpdateField.revenue (fun m2 v => rfl),
    setField_foldl_single (fun x => x.country) UpdateField.genres (fun m2 v => rfl),
    setField_foldl_single (fun x => x.country) UpdateField.actors (fun m2 v => rfl),
    setField_foldl_single (fun x => x.country) UpdateField.languages (fun m2 v => rfl)]

/-- Merge-patch on the genres relationship attribute. -/
theorem applyUpdate_genres_eq (m : MovieRow) (u : MovieUpdateSchema) :
    (applyUpdate m u).genres = (u.genres.map RelAttr.raw).getD m.genres := by
  unfold applyUpdate model_dump_exclude_unset
  simp only [List.foldl_append]
  cases hn : u.genres <;>
  simp [hn, setField,
    setField_foldl_single (fun x => x.genres) UpdateField.name (fun m2 v => rfl),
    setField_foldl_single (fun x => x.genres) UpdateField.date (fun m2 v => rfl),
    setField_foldl_single (fun x => x.genres) UpdateField.score (fun m2 v => rfl),
    setField_foldl_single (fun x => x.genres) UpdateField.overview (fun m2 v => rfl),
    setField_foldl_single (fun x => x.genres) UpdateField.status (fun m2 v => rfl),
    setField_foldl_single (fun x => x.genres) UpdateField.budget (fun m2 v => rfl),
    setField_foldl_single (fun x => x.genres) UpdateField.revenue (fun m2 v => rfl),
    setField_foldl_single (fun x => x.genres) UpdateField.country (fun m2 v => rfl),
    setField_foldl_single (fun x => x.genres) UpdateField.actors (fun m2 v => rfl),
    setField_foldl_single (fun x => x.genres) UpdateField.languages (fun m2 v => rfl)]

/-- Merge-patch on the actors relationship attribute. -/
theorem applyUpdate_actors_eq (m : MovieRow) (u : MovieUpdateSchema) :
    (applyUpdate m u).actors = (u.actors.map RelAttr.raw).getD m.actors := by
  unfold applyUpdate model_dump_exclude_unset
  simp only [List.foldl_append]
  cases hn : u.actors <;>
  simp [hn, setField,
    setField_foldl_single (fun x => x.actors) UpdateField.name (fun m2 v => rfl),
    setField_foldl_single (fun x => x.actors) UpdateField.date (fun m2 v => rfl),
    setField_foldl_single (fun x => x.actors) UpdateField.score (fun m2 v => rfl),
    setField_foldl_single (fun x => x.actors) UpdateField.overview (fun m2 v => rfl),
    setField_foldl_single (fun x => x.actors) UpdateField.status (fun m2 v => rfl),
    setField_foldl_single (fun x => x.actors) UpdateField.budget (fun m2 v => rfl),
    setField_foldl_single (fun x => x.actors) UpdateField.revenue (fun m2 v => rfl),
    setField_foldl_single (fun x => x.actors) UpdateField.country (fun m2 v => rfl),
    setField_foldl_single (fun x => x.actors) UpdateField.genres (fun m2 v => rfl),
    setField_foldl_single (fun x => x.actors) UpdateField.languages (fun m2 v => rfl)]

/-- Merge-patch on the languages relationship attribute. -/
theorem applyUpdate_languages_eq (m : MovieRow) (u : MovieUpdateSchema) :
    (applyUpdate m u).languages = (u.languages.map RelAttr.raw).getD m.languages := by
  unfold applyUpdate model_dump_exclude_unset
  simp only [List.foldl_append]
  cases hn : u.languages <;>
  simp [hn, setField,
    setField_foldl_single (fun x => x.languages) UpdateField.name (fun m2 v => rfl),
    setField_foldl_single (fun x => x.languages) UpdateField.date (fun m2 v => rfl),
    setField_foldl_single (fun x => x.languages) UpdateField.score (fun m2 v => rfl),
    setField_foldl_single (fun x => x.languages) UpdateField.overview (fun m2 v => rfl),
    setField_foldl_single (fun x => x.languages) UpdateField.status (fun m2 v => rfl),
    setField_foldl_single (fun x => x.languages) UpdateField.budget (fun m2 v => rfl),
    setField_foldl_single (fun x => x.languages) UpdateField.revenue (fun m2 v => rfl),
    setField_foldl_single (fun x => x.languages) UpdateField.country (fun m2 v => rfl),
    setField_foldl_single (fun x => x.languages) UpdateField.genres (fun m2 v => rfl),
    setField_foldl_single (fun x => x.languages) UpdateField.actors (fun m2 v => rfl)]

/-- C7: the update loop is a merge-patch: every field explicitly present in
the partial payload is assigned to the movie (the relation-valued fields
receiving the raw payload value), every field absent from the payload keeps
its prior value, the primary key and the country_id column are never touched,
and the empty partial payload leaves the movie entirely unchanged. -/
theorem applyUpdate_merge_patch (m : MovieRow) (u : MovieUpdateSchema) :
    (applyUpdate m u).id = m.id
    ∧ (applyUpdate m u).country_id = m.country_id
    ∧ (applyUpdate m u).name = u.name.getD m.name
    ∧ (applyUpdate m u).date = u.date.getD m.date
    ∧ (applyUpdate m u).score = u.score.getD m.score
    ∧ (applyUpdate m u).overview = u.overview.getD m.overview
    ∧ (applyUpdate m u).status = u.status.getD m.status
    ∧ (applyUpdate m u).budget = u.budget.getD m.budget
    ∧ (applyUpdate m u).revenue = u.revenue.getD m.revenue
    ∧ (applyUpdate m u).country = (u.country.map CountryAttr.raw).getD m.country
    ∧ (applyUpdate m u).genres = (u.genres.map RelAttr.raw).getD m.genres
    ∧ (applyUpdate m u).actors = (u.actors.map RelAttr.raw).getD m.actors
    ∧ (applyUpdate m u).languages = (u.languages.map RelAttr.raw).getD m.languages
    ∧ applyUpdate m {} = m :=
  ⟨applyUpdate_id m u, applyUpdate_country_id_eq m u, applyUpdate_name_eq m u,
   applyUpdate_date_eq m u, applyUpdate_score_eq m u, applyUpdate_overview_eq m u,
   applyUpdate_status_eq m u, applyUpdate_budget_eq m u, applyUpdate_revenue_eq m u,
   applyUpdate_country_eq m u, applyUpdate_genres_eq m u, applyUpdate_actors_eq m u,
   applyUpdate_languages_eq m u, rfl⟩

/-- C8: when the target movie exists, the PATCH handler does not return the
updated detail schema as a normal value: it exits with the HTTP exception
carrying status 200 and the message "Movie updated successfully.". -/
theorem update_movie_raises_200 (db : DB) (movie_id : Nat)
    (u : MovieUpdateSchema)
    (hex : ∃ r ∈ db.movies, r.id = movie_id) :
    (update_movie db movie_id u).1
        = .error { status := 200, detail := "Movie updated successfully." }
    ∧ ∀ mres, ¬ (update_movie db movie_id u).1 = .ok mres := by
  obtain ⟨r, hr, hid⟩ := hex
  have hs : (db.movies.find? (fun x => x.id == movie_id)).isSome :=
    List.find?_isSome.mpr ⟨r, hr, by simp [hid]⟩
  cases hf : db.movies.find? (fun x => x.id == movie_id) with
  | none => rw [hf] at hs; simp at hs
  | some mv =>
      constructor
      · simp [update_movie, hf]
      · intro mres
        simp [update_movie, hf]

/-- C8, at a concrete input: PATCHing the existing movie 1 produces the
status-200 exception outcome, not a normal return. -/
theorem update_movie_raises_200_witness :
    (update_movie sampleDB 1 renamePayload).1
      = .error { status := 200, detail := "Movie updated successfully." } :=
  (update_movie_raises_200 sampleDB 1 renamePayload (by decide)).1

/-- After deleting by id, no row with that id remains, provided ids were
duplicate-free (the primary-key invariant). -/
theorem eraseP_id_none {l : List MovieRow}
    (hnodup : (l.map (fun r => r.id)).Nodup) (mid : Nat) :
    (l.eraseP (fun r => r.id == mid)).find? (fun r => r.id == mid) = none := by
  induction l with
  | nil => simp
  | cons a t ih =>
      simp only [List.map_cons, List.nodup_cons] at hnodup
      by_cases ha : a.id = mid
      · rw [List.eraseP_cons, (by simp [ha] : (a.id == mid) = true)]
        simp only [cond_true]
        apply List.find?_eq_none.mpr
        intro x hx hbeq
        have hxid : x.id = mid := by simpa using hbeq
        have : a.id = x.id := by rw [ha, hxid]
        exact hnodup.1 (this ▸ List.mem_map_of_mem (fun r => r.id) hx)
      · rw [List.eraseP_cons, (by simp [ha] : (a.id == mid) = false)]
        simp only [cond_false]
        rw [List.find?_cons_of_neg _ (by simp [ha])]
        exact ih hnodup.2

/-- C9 as stated is false on the code: deleting the existing movie 1 succeeds
with status 204, but the handler constructs the response with the non-empty
message body "Movie was deleted successfully.", not with empty content. -/
theorem delete_movie_body_cex :
    (delete_movie sampleDB 1).1
        = .ok { status := 204, content := "Movie was deleted successfully." }
    ∧ ¬ (delete_movie sampleDB 1).1 = .ok { status := 204, content := "" } := by
  exact ⟨rfl, by decide⟩

/-- C9 amended: deleting a nonexistent id fails with 404 and changes nothing;
deleting an existing id (under the primary-key invariant) removes that row, so
a subsequent detail call with the same id is a 404, and returns a success
response with status 204 whose body is the deletion message (the code attaches
that message as the response content; the body is not empty). -/
theorem delete_movie_spec (db : DB) (movie_id : Nat)
    (hnodup : (db.movies.map (fun r => r.id)).Nodup) :
    ((¬ ∃ r ∈ db.movies, r.id = movie_id) →
        delete_movie db movie_id
          = (.error { status := 404
                      detail := "Movie with the given ID was not found." }, db))
    ∧ ((∃ r ∈ db.movies, r.id = movie_id) →
        (delete_movie db movie_id).1
            = .ok { status := 204, content := "Movie was deleted successfully." }
        ∧ movie_detail (delete_movie db movie_id).2 movie_id
            = .error { status := 404
                       detail := "Movie with the given ID was not found." }) := by
  constructor
  · intro hne
    have hf : db.movies.find? (fun r => r.id == movie_id) = none := by
      apply List.find?_eq_none.mpr
      intro x hx hbeq
      exact hne ⟨x, hx, by simpa using hbeq⟩
    simp [delete_movie, hf]
  · rintro ⟨r, hr, hid⟩
    have hs : (db.movies.find? (fun x => x.id == movie_id)).isSome :=
      List.find?_isSome.mpr ⟨r, hr, by simp [hid]⟩
    cases hf : db.movies.find? (fun x => x.id == movie_id) with
    | none => rw [hf] at hs; simp at hs
    | some mv =>
        refine ⟨by simp [delete_movie, hf], ?_⟩
        have herase := eraseP_id_none hnodup movie_id
        simp [delete_movie, hf, movie_detail, herase]

/-- C9 amended, at a concrete input: deleting the absent id 99 is a 404 that
leaves the one-movie store unchanged. -/
theorem delete_movie_spec_witness :
    delete_movie sampleDB 99
      = (.error { status := 404
                  detail := "Movie with the given ID was not found." },
         sampleDB) :=
  (delete_movie_spec sampleDB 99 (by decide)).1 (by decide)

/-- Under the primary-key invariant, looking a member row up by its id finds
exactly that row. -/
theorem find?_id_eq_of_mem {l : List MovieRow} {r : MovieRow} {mid : Nat}
    (hnodup : (l.map (fun x => x.id)).Nodup) (hr : r ∈ l) (hid : r.id = mid) :
    l.find? (fun x => x.id == mid) = some r := by
  induction l with
  | nil => cases hr
  | cons a t ih =>
      simp only [List.map_cons, List.nodup_cons] at hnodup
      rcases List.mem_cons.mp hr with rfl | hrt
      · exact List.find?_cons_of_pos _ (by simp [hid])
      · by_cases ha : a.id = mid
        · exfalso
          have hmem : a.id ∈ t.map (fun x => x.id) := by
            rw [ha, ← hid]
            exact List.mem_map_of_mem (fun x => x.id) hrt
          exact hnodup.1 hmem
        · rw [List.find?_cons_of_neg _ (by simp [ha])]
          exact ih hnodup.2 hrt

/-- C10: on a successful PATCH the field assignments are committed to the
store before the handler raises its status-200 exception: the outcome pairs
that exception with the post-commit store in which the merged row replaces the
original, and a subsequent detail call with the same id returns the updated
row - the exception path does not roll the update back. -/
theorem update_movie_commits (db : DB) (movie_id : Nat) (u : MovieUpdateSchema)
    (r : MovieRow) (hr : r ∈ db.movies) (hid : r.id = movie_id)
    (hnodup : (db.movies.map (fun x => x.id)).Nodup) :
    update_movie db movie_id u
      = (.error { status := 200, detail := "Movie updated successfully." },
         { db with movies := replaceById db.movies movie_id (applyUpdate r u) })
    ∧ movie_detail (update_movie db movie_id u).2 movie_id
        = .ok (applyUpdate r u) := by
  have hf := find?_id_eq_of_mem hnodup hr hid
  have hmain : update_movie db movie_id u
      = (.error { status := 200, detail := "Movie updated successfully." },
         { db with movies := replaceById db.movies movie_id (applyUpdate r u) }) := by
    simp [update_movie, hf]
  refine ⟨hmain, ?_⟩
  rw [hmain]
  have hgid : ∀ x ∈ db.movies,
      ((fun x => if x.id == movie_id then applyUpdate r u else x) x).id = x.id := by
    intro x _
    by_cases hxe : x.id = movie_id
    · simp [hxe, applyUpdate_id, hid]
    · simp [hxe]
  have hnodup2 : ((replaceById db.movies movie_id (applyUpdate r u)).map
      (fun x => x.id)).Nodup := by
    unfold replaceById
    rw [List.map_map]
    have hcongr : db.movies.map
        ((fun x => x.id) ∘ (fun x => if x.id == movie_id then applyUpdate r u else x))
        = db.movies.map (fun x => x.id) :=
      List.map_congr_left (fun a ha => hgid a ha)
    rw [hcongr]
    exact hnodup
  have hmem2 : applyUpdate r u ∈ replaceById db.movies movie_id (applyUpdate r u) := by
    unfold replaceById
    have hmap := List.mem_map_of_mem
      (fun x => if x.id == movie_id then applyUpdate r u else x) hr
    simpa [hid] using hmap
  have hfind2 := find?_id_eq_of_mem hnodup2 hmem2
    (by rw [applyUpdate_id, hid])
  simp [movie_detail, hfind2]

/-- C10, at a concrete input: after PATCHing movie 1 with the rename payload,
the detail endpoint returns the merged (renamed) row. -/
theorem update_movie_commits_witness :
    movie_detail (update_movie sampleDB 1 renamePayload).2 1
      = .ok (applyUpdate sampleMovie renamePayload) :=
  (update_movie_commits sampleDB 1 renamePayload sampleMovie (by decide)
    (by decide) (by decide)).2

end MoviesApi
